import Mathlib

/-!
Shallow embedding of `src/server.js` (AI Comparison Tool backend).

The server exposes `POST /api/compare` and `GET /api/health`.  The compare
handler validates the prompt (`!prompt || prompt.trim().length === 0`),
then calls three provider adapters (`callModelA`, `callModelB`, `callModelC`)
in parallel with the same prompt and assembles `{ modelA, modelB, modelC }`.
Each adapter posts a provider-specific JSON body, extracts text from the
provider response at a fixed path, and wraps its whole body in try/catch,
returning the string `Error calling Model X: <message>` on any exception.

JavaScript values are modelled by `JsValue` (including `undefined`).
Property and index access follow JavaScript semantics: access on
`undefined`/`null` throws a TypeError (modelled with `Except String`);
access of a missing property on an object yields `undefined`.
The network is modelled as a function from the posted request body to an
`HttpOutcome`: either a fulfilled (2xx) response with a parsed body, or a
rejection carrying an error message (axios rejects on network errors,
non-2xx statuses, and so on).
-/

/-- A JavaScript value, as far as the server manipulates them: `undefined`,
`null`, booleans, numbers (integer-valued; the server does no arithmetic on
them), strings, arrays and plain objects. -/
inductive JsValue where
  | undefined : JsValue
  | jsNull : JsValue
  | bool (b : Bool) : JsValue
  | num (n : Int) : JsValue
  | str (s : String) : JsValue
  | arr (elems : List JsValue) : JsValue
  | obj (fields : List (String × JsValue)) : JsValue

/-- JavaScript property read `v.p`, with `none` meaning a thrown TypeError:
reading a property of `undefined` or `null` throws; a missing property on an
object, or a property read on a primitive, yields `undefined`. -/
def getProp : JsValue → String → Option JsValue
  | .undefined, _ => none
  | .jsNull, _ => none
  | .obj fields, p => some ((List.lookup p fields).getD .undefined)
  | _, _ => some .undefined

/-- JavaScript index read `v[i]`: throws on `undefined`/`null`, indexes
arrays (out of range gives `undefined`), indexes strings character-wise,
treats objects as maps keyed by the numeral, and yields `undefined` on other
primitives. -/
def getIndex : JsValue → Nat → Option JsValue
  | .undefined, _ => none
  | .jsNull, _ => none
  | .arr xs, i => some ((xs.get? i).getD .undefined)
  | .str s, i =>
      some (match s.data.get? i with
            | some c => .str (String.singleton c)
            | none => .undefined)
  | .obj fields, i => some ((List.lookup (toString i) fields).getD .undefined)
  | _, _ => some .undefined

/-- Property read returning the TypeError message on a throw, as the
adapters catch it via `error.message`. -/
def getPropE (v : JsValue) (p : String) : Except String JsValue :=
  match getProp v p with
  | some w => .ok w
  | none =>
      .error ("Cannot read properties of "
        ++ (match v with | .jsNull => "null" | _ => "undefined")
        ++ " (reading " ++ p ++ ")")

/-- Index read returning the TypeError message on a throw. -/
def getIndexE (v : JsValue) (i : Nat) : Except String JsValue :=
  match getIndex v i with
  | some w => .ok w
  | none =>
      .error ("Cannot read properties of "
        ++ (match v with | .jsNull => "null" | _ => "undefined")
        ++ " (reading " ++ toString i ++ ")")

/-- JavaScript truthiness of the values in the model (`NaN` does not arise
since numbers are integer-valued). -/
def jsTruthy : JsValue → Bool
  | .undefined => false
  | .jsNull => false
  | .bool b => b
  | .num n => n != 0
  | .str s => s != ""
  | .arr _ => true
  | .obj _ => true

/-- `v` is a string value. -/
def isStr : JsValue → Bool
  | .str _ => true
  | _ => false

/-- Drop leading whitespace characters from a character list. -/
def dropLeadingWs : List Char → List Char
  | [] => []
  | c :: cs => if c.isWhitespace then dropLeadingWs cs else c :: cs

/-- `String.prototype.trim`: strip leading and trailing whitespace.  (The
model covers the ASCII whitespace characters; the claims never hinge on the
exotic Unicode space characters JavaScript also strips.) -/
def jsTrim (s : String) : String :=
  ⟨(dropLeadingWs (dropLeadingWs s.data).reverse).reverse⟩

/-- Model A (OpenAI) endpoint URL. -/
def endpointA : String := "https://api.openai.com/v1/chat/completions"

/-- Model B (Anthropic) endpoint URL. -/
def endpointB : String := "https://api.anthropic.com/v1/messages"

/-- Model C (Gemini) endpoint URL: the model identifier sits in the URL path
and the API key in the query string. -/
def endpointC (key : String) : String :=
  "https://generativelanguage.googleapis.com/v1beta/models/gemini-pro:generateContent?key="
    ++ key

/-- Request body posted by `callModelA`:
`{ model: "gpt-4", messages: [{ role: "user", content: prompt }], max_tokens: 500 }`. -/
def requestBodyA (prompt : String) : JsValue :=
  .obj [("model", .str "gpt-4"),
        ("messages", .arr [.obj [("role", .str "user"), ("content", .str prompt)]]),
        ("max_tokens", .num 500)]

/-- Request body posted by `callModelB`:
`{ model: "claude-3-opus-20240229", max_tokens: 500, messages: [{ role: "user", content: prompt }] }`. -/
def requestBodyB (prompt : String) : JsValue :=
  .obj [("model", .str "claude-3-opus-20240229"),
        ("max_tokens", .num 500),
        ("messages", .arr [.obj [("role", .str "user"), ("content", .str prompt)]])]

/-- Request body posted by `callModelC`:
`{ contents: [{ parts: [{ text: prompt }] }] }` and nothing else. -/
def requestBodyC (prompt : String) : JsValue :=
  .obj [("contents", .arr [.obj [("parts", .arr [.obj [("text", .str prompt)]])]])]

/-- Extraction path of adapter A: `response.data.choices[0].message.content`. -/
def extractA (data : JsValue) : Except String JsValue :=
  getPropE data "choices" >>= fun v => getIndexE v 0 >>= fun v =>
    getPropE v "message" >>= fun v => getPropE v "content"

/-- Extraction path of adapter B: `response.data.content[0].text`. -/
def extractB (data : JsValue) : Except String JsValue :=
  getPropE data "content" >>= fun v => getIndexE v 0 >>= fun v =>
    getPropE v "text"

/-- Extraction path of adapter C:
`response.data.candidates[0].content.parts[0].text`. -/
def extractC (data : JsValue) : Except String JsValue :=
  getPropE data "candidates" >>= fun v => getIndexE v 0 >>= fun v =>
    getPropE v "content" >>= fun v => getPropE v "parts" >>= fun v =>
    getIndexE v 0 >>= fun v => getPropE v "text"

/-- Outcome of one outbound HTTP call: axios either fulfills with a parsed
response body (2xx) or rejects with an error message (network error, non-2xx
status, missing or bad credentials, ...). -/
inductive HttpOutcome where
  | ok (data : JsValue) : HttpOutcome
  | err (message : String) : HttpOutcome

/-- A world: what each provider endpoint answers to a posted body. -/
abbrev World := JsValue → HttpOutcome

/-- Adapter A (`callModelA`): posts `requestBodyA prompt`; on fulfillment
extracts along `extractA`; any exception (the rejection, or a TypeError in
the extraction) is caught and turned into `Error calling Model A: <msg>`. -/
def callModelA (prompt : String) (w : World) : JsValue :=
  match w (requestBodyA prompt) with
  | .err m => .str ("Error calling Model A: " ++ m)
  | .ok data =>
      match extractA data with
      | .ok v => v
      | .error m => .str ("Error calling Model A: " ++ m)

/-- Adapter B (`callModelB`), same shape with the Model B body and path. -/
def callModelB (prompt : String) (w : World) : JsValue :=
  match w (requestBodyB prompt) with
  | .err m => .str ("Error calling Model B: " ++ m)
  | .ok data =>
      match extractB data with
      | .ok v => v
      | .error m => .str ("Error calling Model B: " ++ m)

/-- Adapter C (`callModelC`), same shape with the Model C body and path. -/
def callModelC (prompt : String) (w : World) : JsValue :=
  match w (requestBodyC prompt) with
  | .err m => .str ("Error calling Model C: " ++ m)
  | .ok data =>
      match extractC data with
      | .ok v => v
      | .error m => .str ("Error calling Model C: " ++ m)

/-- The three providers. -/
inductive Provider where
  | A : Provider
  | B : Provider
  | C : Provider

/-- One outbound adapter invocation: which provider, with which prompt. -/
structure CallRec where
  provider : Provider
  prompt : String

/-- Result of running an Express handler: an HTTP response with a status and
a JSON body, or an exception escaping the (async) handler. -/
inductive HandlerResult where
  | response (status : Nat) (body : JsValue) : HandlerResult
  | thrown (msg : String) : HandlerResult

/-- The 400 body `{ error: "Prompt cannot be empty" }`. -/
def promptErrorBody : JsValue := .obj [("error", .str "Prompt cannot be empty")]

/-- Message of the TypeError raised by `prompt.trim()` on a truthy
non-string prompt. -/
def trimTypeError : String := "prompt.trim is not a function"

/-- The `POST /api/compare` handler.  `prompt` is `req.body.prompt` (any
JavaScript value); the three worlds answer the three outbound posts.  The
result is paired with the list of adapter invocations performed.  Following
the source: `if (!prompt || prompt.trim().length === 0)` returns 400 (the
truthiness test short-circuits, so `.trim()` is only reached on truthy
values, and throws on truthy non-strings); on a valid prompt the three
adapters are called with the same untrimmed prompt and the response is
`{ modelA, modelB, modelC }` with status 200. -/
def compareHandler (prompt : JsValue) (wA wB wC : World) :
    HandlerResult × List CallRec :=
  if jsTruthy prompt = false then
    (.response 400 promptErrorBody, [])
  else
    match prompt with
    | .str s =>
        if (jsTrim s).length = 0 then
          (.response 400 promptErrorBody, [])
        else
          (.response 200 (.obj [("modelA", callModelA s wA),
                                ("modelB", callModelB s wB),
                                ("modelC", callModelC s wC)]),
           [⟨.A, s⟩, ⟨.B, s⟩, ⟨.C, s⟩])
    | _ => (.thrown trimTypeError, [])

/-- The `GET /api/health` handler: ignores the request and answers 200 with
`{ status: "Server is running" }`. -/
def healthHandler (_req : JsValue) : Nat × JsValue :=
  (200, .obj [("status", .str "Server is running")])

/-- Status of a handler result, `none` when an exception escaped. -/
def respStatus : HandlerResult → Option Nat
  | .response s _ => some s
  | .thrown _ => none

/-- Value of a named slot in a response body (for reading the assembled
`modelA`/`modelB`/`modelC` fields). -/
def slot (r : HandlerResult × List CallRec) (k : String) : JsValue :=
  match r.1 with
  | .response _ (.obj fields) => (List.lookup k fields).getD .undefined
  | _ => .undefined

mutual

/-- Whether the key `k` occurs anywhere in the value (as an object field
name, at any depth). -/
def hasKey : JsValue → String → Bool
  | .obj fs, k => hasKeyFields fs k
  | .arr xs, k => hasKeyList xs k
  | _, _ => false

/-- `hasKey` over the fields of an object. -/
def hasKeyFields : List (String × JsValue) → String → Bool
  | [], _ => false
  | (k2, v) :: rest, k => k2 == k || hasKey v k || hasKeyFields rest k

/-- `hasKey` over the elements of an array. -/
def hasKeyList : List JsValue → String → Bool
  | [], _ => false
  | v :: rest, k => hasKey v k || hasKeyList rest k

end

/-- Text the adapter A request body embeds, read back along
`body.messages[0].content`. -/
def requestTextA (b : JsValue) : Except String JsValue :=
  getPropE b "messages" >>= fun v => getIndexE v 0 >>= fun v =>
    getPropE v "content"

/-- Text the adapter B request body embeds, read back along
`body.messages[0].content`. -/
def requestTextB (b : JsValue) : Except String JsValue :=
  getPropE b "messages" >>= fun v => getIndexE v 0 >>= fun v =>
    getPropE v "content"

/-- Text the adapter C request body embeds, read back along
`body.contents[0].parts[0].text`. -/
def requestTextC (b : JsValue) : Except String JsValue :=
  getPropE b "contents" >>= fun v => getIndexE v 0 >>= fun v =>
    getPropE v "parts" >>= fun v => getIndexE v 0 >>= fun v =>
    getPropE v "text"

/-! ### Helper lemmas -/

theorem string_length_eq_zero {t : String} (h : t.length = 0) : t = "" := by
  cases t with
  | mk data =>
    cases data with
    | nil => rfl
    | cons c cs => simp [String.length] at h

/-- On a prompt that survives validation, the compare handler answers 200
with the three adapter results bound to their slots, having invoked A, B, C
with the same untrimmed prompt. -/
theorem compareHandler_valid (s : String) (wA wB wC : World)
    (h : jsTrim s ≠ "") :
    compareHandler (.str s) wA wB wC =
      (.response 200 (.obj [("modelA", callModelA s wA),
                            ("modelB", callModelB s wB),
                            ("modelC", callModelC s wC)]),
       [⟨.A, s⟩, ⟨.B, s⟩, ⟨.C, s⟩]) := by
  have hs : s ≠ "" := by
    intro e
    exact h (by rw [e]; rfl)
  have h1 : jsTruthy (.str s) = true := by simp [jsTruthy, hs]
  have h2 : ¬ (jsTrim s).length = 0 := fun e => h (string_length_eq_zero e)
  simp [compareHandler, h1, h2]

/-! ### Claims -/

/-- C1 (counterexample).  The claim says every failure outcome of the
outbound call — including a malformed or unexpected response shape — yields
a string of the form `Error calling <Label>: <message>`.  But for a
fulfilled response with the unexpected shape
`{ choices: [ { message: {} } ] }` the extraction path
`data.choices[0].message.content` resolves without throwing, to `undefined`,
and `callModelA` returns that `undefined` — not an error string, and not a
string at all. -/
theorem c1_counterexample :
    callModelA "hi"
        (fun _ => HttpOutcome.ok (.obj [("choices", .arr [.obj [("message", .obj [])]])]))
      = .undefined
    ∧ isStr (callModelA "hi"
        (fun _ => HttpOutcome.ok (.obj [("choices", .arr [.obj [("message", .obj [])]])])))
      = false :=
  ⟨rfl, rfl⟩

/-- C1 (amended): for every prompt, each adapter returns the string
`Error calling <Label>: <message>` exactly when the outbound call rejects
(network error, non-2xx status, missing credentials) or the extraction path
throws on the fulfilled body; when the extraction path resolves, the adapter
returns the resolved value as-is (which need not be a string).  In all cases
the adapter returns normally: no rejection or exception passes its
boundary. -/
theorem c1_adapters_catch (s : String) (wA wB wC : World) :
    (∀ m, wA (requestBodyA s) = .err m →
        callModelA s wA = .str ("Error calling Model A: " ++ m))
  ∧ (∀ d m, wA (requestBodyA s) = .ok d → extractA d = .error m →
        callModelA s wA = .str ("Error calling Model A: " ++ m))
  ∧ (∀ d v, wA (requestBodyA s) = .ok d → extractA d = .ok v →
        callModelA s wA = v)
  ∧ (∀ m, wB (requestBodyB s) = .err m →
        callModelB s wB = .str ("Error calling Model B: " ++ m))
  ∧ (∀ d m, wB (requestBodyB s) = .ok d → extractB d = .error m →
        callModelB s wB = .str ("Error calling Model B: " ++ m))
  ∧ (∀ d v, wB (requestBodyB s) = .ok d → extractB d = .ok v →
        callModelB s wB = v)
  ∧ (∀ m, wC (requestBodyC s) = .err m →
        callModelC s wC = .str ("Error calling Model C: " ++ m))
  ∧ (∀ d m, wC (requestBodyC s) = .ok d → extractC d = .error m →
        callModelC s wC = .str ("Error calling Model C: " ++ m))
  ∧ (∀ d v, wC (requestBodyC s) = .ok d → extractC d = .ok v →
        callModelC s wC = v) := by
  refine ⟨?_, ?_, ?_, ?_, ?_, ?_, ?_, ?_, ?_⟩ <;> intros <;>
    simp_all [callModelA, callModelB, callModelC]

/-- C1 (witness): a concrete rejected call yields the error string. -/
theorem c1_witness :
    callModelA "hi" (fun _ => HttpOutcome.err "connect ECONNREFUSED")
      = .str ("Error calling Model A: " ++ "connect ECONNREFUSED") :=
  (c1_adapters_catch "hi" (fun _ => HttpOutcome.err "connect ECONNREFUSED")
    (fun _ => HttpOutcome.err "connect ECONNREFUSED")
    (fun _ => HttpOutcome.err "connect ECONNREFUSED")).1
    "connect ECONNREFUSED" rfl

/-- C2 (counterexample).  The claim says every valid prompt yields HTTP 200
with all three slots populated by strings regardless of the providers'
responses.  Status 200 does hold, but with provider A answering the
unexpected shape `{ choices: [ { message: {} } ] }` the `modelA` slot is
`undefined`, not a string (and `res.json` would then even omit the key from
the serialized body). -/
theorem c2_counterexample :
    compareHandler (.str "hi")
        (fun _ => HttpOutcome.ok (.obj [("choices", .arr [.obj [("message", .obj [])]])]))
        (fun _ => HttpOutcome.err "down")
        (fun _ => HttpOutcome.err "down")
      = (.response 200 (.obj [("modelA", .undefined),
                              ("modelB", .str "Error calling Model B: down"),
                              ("modelC", .str "Error calling Model C: down")]),
         [⟨.A, "hi"⟩, ⟨.B, "hi"⟩, ⟨.C, "hi"⟩])
    ∧ isStr JsValue.undefined = false :=
  ⟨rfl, rfl⟩

/-- C2 (amended): for every prompt that is non-empty after trimming,
`POST /api/compare` answers HTTP 200 with `modelA`/`modelB`/`modelC` bound
to the three adapter results; a slot is guaranteed to be a string whenever
its provider call rejects (the error string); a fulfilled provider response
fills the slot with whatever the extraction path resolves to, which need not
be a string. -/
theorem c2_valid_prompt_response (s : String) (wA wB wC : World)
    (h : jsTrim s ≠ "") :
    respStatus (compareHandler (.str s) wA wB wC).1 = some 200
  ∧ slot (compareHandler (.str s) wA wB wC) "modelA" = callModelA s wA
  ∧ slot (compareHandler (.str s) wA wB wC) "modelB" = callModelB s wB
  ∧ slot (compareHandler (.str s) wA wB wC) "modelC" = callModelC s wC
  ∧ (∀ m, wA (requestBodyA s) = .err m →
        isStr (slot (compareHandler (.str s) wA wB wC) "modelA") = true)
  ∧ (∀ m, wB (requestBodyB s) = .err m →
        isStr (slot (compareHandler (.str s) wA wB wC) "modelB") = true)
  ∧ (∀ m, wC (requestBodyC s) = .err m →
        isStr (slot (compareHandler (.str s) wA wB wC) "modelC") = true) := by
  rw [compareHandler_valid s wA wB wC h]
  refine ⟨rfl, rfl, rfl, rfl, ?_, ?_, ?_⟩
  · intro m hm
    have e : callModelA s wA = .str ("Error calling Model A: " ++ m) := by
      simp [callModelA, hm]
    rw [e]; rfl
  · intro m hm
    have e : callModelB s wB = .str ("Error calling Model B: " ++ m) := by
      simp [callModelB, hm]
    rw [e]; rfl
  · intro m hm
    have e : callModelC s wC = .str ("Error calling Model C: " ++ m) := by
      simp [callModelC, hm]
    rw [e]; rfl

/-- C2 (witness): a concrete valid prompt with whitespace, all providers
rejecting, gives status 200. -/
theorem c2_witness :
    respStatus (compareHandler (.str " hello ")
        (fun _ => HttpOutcome.err "x") (fun _ => HttpOutcome.err "y")
        (fun _ => HttpOutcome.err "z")).1 = some 200 :=
  (c2_valid_prompt_response " hello " (fun _ => HttpOutcome.err "x")
    (fun _ => HttpOutcome.err "y") (fun _ => HttpOutcome.err "z")
    (by decide)).1

/-- C3 (counterexample).  The claim says every request whose prompt is not a
present, non-blank string — including "otherwise invalid" values — gets
HTTP 400.  But for the truthy non-string prompt `42` the handler reaches
`prompt.trim()`, which throws a TypeError that escapes the async handler:
no 400 response is produced and no adapter is invoked. -/
theorem c3_counterexample :
    compareHandler (.num 42) (fun _ => HttpOutcome.err "x")
        (fun _ => HttpOutcome.err "x") (fun _ => HttpOutcome.err "x")
      = (.thrown trimTypeError, [])
    ∧ respStatus (compareHandler (.num 42) (fun _ => HttpOutcome.err "x")
        (fun _ => HttpOutcome.err "x") (fun _ => HttpOutcome.err "x")).1
      ≠ some 400 :=
  ⟨rfl, by decide⟩

/-- C3 (amended): for every request whose prompt is either falsy (absent,
null, false, 0, empty string) or a string that trims to empty,
`POST /api/compare` answers HTTP 400 with `{ error: "Prompt cannot be
empty" }` and no adapter is invoked.  (A truthy non-string prompt instead
makes `prompt.trim()` throw, so no 400 is produced for those.) -/
theorem c3_invalid_prompt_400 (p : JsValue) (wA wB wC : World)
    (h : jsTruthy p = false ∨ ∃ s, p = .str s ∧ (jsTrim s).length = 0) :
    compareHandler p wA wB wC = (.response 400 promptErrorBody, []) := by
  rcases h with h | ⟨s, rfl, hs⟩
  · simp [compareHandler, h]
  · by_cases ht : jsTruthy (.str s) = false
    · simp [compareHandler, ht]
    · simp [compareHandler, ht, hs]

/-- C3 (witness): a concrete whitespace-only prompt gets the 400 with the
exact error body and an empty call log. -/
theorem c3_witness :
    compareHandler (.str "   ") (fun _ => HttpOutcome.err "x")
        (fun _ => HttpOutcome.err "x") (fun _ => HttpOutcome.err "x")
      = (.response 400 promptErrorBody, []) :=
  c3_invalid_prompt_400 (.str "   ") (fun _ => HttpOutcome.err "x")
    (fun _ => HttpOutcome.err "x") (fun _ => HttpOutcome.err "x")
    (Or.inr ⟨"   ", rfl, by decide⟩)

/-- C4: if all three providers fail on a valid request, the endpoint still
answers HTTP 200 with the three slots holding the error-prefixed strings;
and for every combination of provider worlds whatsoever the status on a
valid request is 200 — provider failures are never escalated to 500 or to
partial failure. -/
theorem c4_all_fail_still_200 (s mA mB mC : String) (h : jsTrim s ≠ "") :
    compareHandler (.str s) (fun _ => .err mA) (fun _ => .err mB)
        (fun _ => .err mC)
      = (.response 200 (.obj [("modelA", .str ("Error calling Model A: " ++ mA)),
                              ("modelB", .str ("Error calling Model B: " ++ mB)),
                              ("modelC", .str ("Error calling Model C: " ++ mC))]),
         [⟨.A, s⟩, ⟨.B, s⟩, ⟨.C, s⟩])
  ∧ ∀ wA wB wC : World,
      respStatus (compareHandler (.str s) wA wB wC).1 = some 200 := by
  constructor
  · rw [compareHandler_valid _ _ _ _ h]
    rfl
  · intro wA wB wC
    rw [compareHandler_valid _ _ _ _ h]
    rfl

/-- C4 (witness): concrete prompt and failure messages. -/
theorem c4_witness :
    compareHandler (.str "hi") (fun _ => .err "timeout")
        (fun _ => .err "401") (fun _ => .err "ENOTFOUND")
      = (.response 200
           (.obj [("modelA", .str ("Error calling Model A: " ++ "timeout")),
                  ("modelB", .str ("Error calling Model B: " ++ "401")),
                  ("modelC", .str ("Error calling Model C: " ++ "ENOTFOUND"))]),
         [⟨.A, "hi"⟩, ⟨.B, "hi"⟩, ⟨.C, "hi"⟩]) :=
  (c4_all_fail_still_200 "hi" "timeout" "401" "ENOTFOUND" (by decide)).1

/-- C5: two-run noninterference of the adapters.  For a fixed valid prompt,
replacing one provider's world (its answer to the outbound call, success or
any failure) leaves the other two slots of the response and the full
invocation log unchanged. -/
theorem c5_noninterference (s : String) (wA wA' wB wB' wC wC' : World)
    (h : jsTrim s ≠ "") :
    (slot (compareHandler (.str s) wA wB wC) "modelB"
        = slot (compareHandler (.str s) wA' wB wC) "modelB"
     ∧ slot (compareHandler (.str s) wA wB wC) "modelC"
        = slot (compareHandler (.str s) wA' wB wC) "modelC"
     ∧ (compareHandler (.str s) wA wB wC).2
        = (compareHandler (.str s) wA' wB wC).2)
  ∧ (slot (compareHandler (.str s) wA wB wC) "modelA"
        = slot (compareHandler (.str s) wA wB' wC) "modelA"
     ∧ slot (compareHandler (.str s) wA wB wC) "modelC"
        = slot (compareHandler (.str s) wA wB' wC) "modelC"
     ∧ (compareHandler (.str s) wA wB wC).2
        = (compareHandler (.str s) wA wB' wC).2)
  ∧ (slot (compareHandler (.str s) wA wB wC) "modelA"
        = slot (compareHandler (.str s) wA wB wC') "modelA"
     ∧ slot (compareHandler (.str s) wA wB wC) "modelB"
        = slot (compareHandler (.str s) wA wB wC') "modelB"
     ∧ (compareHandler (.str s) wA wB wC).2
        = (compareHandler (.str s) wA wB wC').2) := by
  have e : ∀ vA vB vC : World,
      compareHandler (.str s) vA vB vC =
        (.response 200 (.obj [("modelA", callModelA s vA),
                              ("modelB", callModelB s vB),
                              ("modelC", callModelC s vC)]),
         [⟨.A, s⟩, ⟨.B, s⟩, ⟨.C, s⟩]) :=
    fun vA vB vC => compareHandler_valid s vA vB vC h
  rw [e wA wB wC, e wA' wB wC, e wA wB' wC, e wA wB wC']
  exact ⟨⟨rfl, rfl, rfl⟩, ⟨rfl, rfl, rfl⟩, ⟨rfl, rfl, rfl⟩⟩

/-- C5 (witness): concrete instance — provider A succeeding versus failing
leaves the `modelB` slot unchanged. -/
theorem c5_witness :
    slot (compareHandler (.str "hi")
        (fun _ => .ok (.obj [("choices", .arr [.obj [("message",
            .obj [("content", .str "fine")])]])]))
        (fun _ => .err "down") (fun _ => .err "down")) "modelB"
      = slot (compareHandler (.str "hi") (fun _ => .err "boom")
        (fun _ => .err "down") (fun _ => .err "down")) "modelB" :=
  ((c5_noninterference "hi"
      (fun _ => .ok (.obj [("choices", .arr [.obj [("message",
          .obj [("content", .str "fine")])]])]))
      (fun _ => .err "boom")
      (fun _ => .err "down") (fun _ => .err "down")
      (fun _ => .err "down") (fun _ => .err "down")
      (by decide)).1).1

/-- C6 (counterexample).  The claim says each of the three outbound requests
carries a max-output-token cap.  Adapter C's request body is
`{ contents: [{ parts: [{ text: prompt }] }] }`: it contains no
`max_tokens` field, no `maxOutputTokens` field and no `model` field at any
depth, while the A and B bodies do carry `max_tokens`. -/
theorem c6_counterexample :
    hasKey (requestBodyC "hi") "max_tokens" = false
  ∧ hasKey (requestBodyC "hi") "maxOutputTokens" = false
  ∧ hasKey (requestBodyC "hi") "model" = false
  ∧ hasKey (requestBodyA "hi") "max_tokens" = true
  ∧ hasKey (requestBodyB "hi") "max_tokens" = true := by
  decide

/-- C6 (amended): adapters A and B build their outbound bodies from
provider-specific configuration with a model identifier and a
max-output-token cap (`max_tokens`); adapter C's body nests the prompt under
`contents`/`parts`/`text` and carries neither a model field nor any
max-output-token cap — its model identifier appears only in the endpoint
URL path. -/
theorem c6_request_configuration (s key : String) :
    hasKey (requestBodyA s) "model" = true
  ∧ hasKey (requestBodyA s) "max_tokens" = true
  ∧ hasKey (requestBodyB s) "model" = true
  ∧ hasKey (requestBodyB s) "max_tokens" = true
  ∧ hasKey (requestBodyC s) "model" = false
  ∧ hasKey (requestBodyC s) "max_tokens" = false
  ∧ hasKey (requestBodyC s) "maxOutputTokens" = false
  ∧ endpointC key =
      "https://generativelanguage.googleapis.com/v1beta/models/gemini-pro:generateContent?key="
        ++ key :=
  ⟨rfl, rfl, rfl, rfl, rfl, rfl, rfl, rfl⟩

/-- C7: on a valid prompt the relay invokes adapters A, B, C with the same
untrimmed prompt string, waits for all three, and binds adapter A's result
to `modelA`, B's to `modelB` and C's to `modelC`, answering 200. -/
theorem c7_fanout_binding (s : String) (wA wB wC : World)
    (h : jsTrim s ≠ "") :
    compareHandler (.str s) wA wB wC =
      (.response 200 (.obj [("modelA", callModelA s wA),
                            ("modelB", callModelB s wB),
                            ("modelC", callModelC s wC)]),
       [⟨.A, s⟩, ⟨.B, s⟩, ⟨.C, s⟩]) :=
  compareHandler_valid s wA wB wC h

/-- C7 (witness): concrete valid prompt and worlds. -/
theorem c7_witness :
    compareHandler (.str "compare this") (fun _ => .err "x")
        (fun _ => .err "y") (fun _ => .err "z") =
      (.response 200
         (.obj [("modelA", callModelA "compare this" (fun _ => .err "x")),
                ("modelB", callModelB "compare this" (fun _ => .err "y")),
                ("modelC", callModelC "compare this" (fun _ => .err "z"))]),
       [⟨.A, "compare this"⟩, ⟨.B, "compare this"⟩, ⟨.C, "compare this"⟩]) :=
  c7_fanout_binding "compare this" (fun _ => .err "x") (fun _ => .err "y")
    (fun _ => .err "z") (by decide)

/-- C8: for every request, `GET /api/health` answers HTTP 200 with
`{ status: "Server is running" }` — the handler ignores the request and
every other state, so the answer is independent of provider availability. -/
theorem c8_health_always_200 (req : JsValue) :
    healthHandler req = (200, .obj [("status", .str "Server is running")]) :=
  rfl

/-- C9: the prompt is forwarded untrimmed.  For every prompt with leading or
trailing whitespace that still passes validation, the text embedded in each
of the three outbound request bodies (read back along each provider's own
nesting) is exactly the original string, and the adapters are invoked with
that original string. -/
theorem c9_untrimmed_forwarding (s : String) (wA wB wC : World)
    (h1 : jsTrim s ≠ "") (h2 : s ≠ jsTrim s) :
    requestTextA (requestBodyA s) = .ok (.str s)
  ∧ requestTextB (requestBodyB s) = .ok (.str s)
  ∧ requestTextC (requestBodyC s) = .ok (.str s)
  ∧ (compareHandler (.str s) wA wB wC).2 = [⟨.A, s⟩, ⟨.B, s⟩, ⟨.C, s⟩] := by
  refine ⟨rfl, rfl, rfl, ?_⟩
  rw [compareHandler_valid _ _ _ _ h1]

/-- C9 (witness): the prompt `" hi "` is embedded with its whitespace. -/
theorem c9_witness :
    requestTextA (requestBodyA " hi ") = .ok (.str " hi ")
  ∧ requestTextB (requestBodyB " hi ") = .ok (.str " hi ")
  ∧ requestTextC (requestBodyC " hi ") = .ok (.str " hi ")
  ∧ (compareHandler (.str " hi ") (fun _ => .err "x") (fun _ => .err "x")
      (fun _ => .err "x")).2 = [⟨.A, " hi "⟩, ⟨.B, " hi "⟩, ⟨.C, " hi "⟩] :=
  c9_untrimmed_forwarding " hi " (fun _ => .err "x") (fun _ => .err "x")
    (fun _ => .err "x") (by decide) (by decide)

/-- C10: the validation test short-circuits.  For every falsy prompt value
of any type (absent/`undefined`, `null`, `false`, `0`, the empty string) the
handler answers HTTP 400 with `{ error: "Prompt cannot be empty" }` and an
empty invocation log: `.trim()` is never reached, so no TypeError is thrown
on falsy input. -/
theorem c10_short_circuit (p : JsValue) (wA wB wC : World)
    (h : jsTruthy p = false) :
    compareHandler p wA wB wC = (.response 400 promptErrorBody, []) := by
  simp [compareHandler, h]

/-- C10 (witness): the falsy number `0` gets the 400 response, not a
TypeError. -/
theorem c10_witness :
    compareHandler (.num 0) (fun _ => .err "x") (fun _ => .err "x")
      (fun _ => .err "x") = (.response 400 promptErrorBody, []) :=
  c10_short_circuit (.num 0) (fun _ => .err "x") (fun _ => .err "x")
    (fun _ => .err "x") (by decide)
